import Mathlib

/-!
Shallow embedding of the AlmaAPITK gateway layer.

Embedded source files:
* `src/src/core/base_client.py` — `AlmaResponse`, `BaseAPIClient`
  (`_enforce_rate_limit`, `_parse_response`, `_handle_error_response`,
  `_make_request`, class constants).
* `src/core/config_manager.py` — `ConfigManager`
  (`load_env_variables`, `set_environment`, `set_headers`).
* `src/src/client/AlmaAPIClient.py` — `AlmaAPIClient`
  (`_load_configuration`, `_setup_headers`, `switch_environment`,
  `safe_request`).
* `src/client.py` — `AlmaClient.switch_environment`.

Modelling conventions:
* Python exceptions become explicit error values (`Except` / `× Option`),
  with partially-mutated state returned alongside the error where the Python
  code mutates `self` before raising.
* `time.time()` values are modelled as exact rationals; `time.sleep` is
  modelled by returning the slept duration.
* The HTTP transport (`requests.get` / `post` / `put` / `delete`) is an
  external collaborator and is a parameter: a function from the request
  arguments and the attempt number to the outcome of that attempt.
* `json.loads` / `json.dumps` (and `requests.Response.json`) are external
  library functions and are parameters (`loads`, `dumps`).
-/

/-- Models Python's `str.upper()` (ASCII, which is all this code base uses). -/
def pyUpper (s : String) : String := String.mk (s.toList.map Char.toUpper)

/-- Models Python's `str.lower()` (ASCII, which is all this code base uses). -/
def pyLower (s : String) : String := String.mk (s.toList.map Char.toLower)

/-- Models Python's substring test `needle in hay` on strings. -/
def strContains (hay needle : String) : Bool :=
  hay.toList.tails.any (fun t => needle.toList.isPrefixOf t)

/-- Models Python truthiness of an `Optional[str]`: `None` and `""` are falsy. -/
def pyTruthyOpt : Option String → Bool
  | none => false
  | some s => s ≠ ""

/-- Models Python f-string interpolation of an `Optional[str]` value
(`None` prints as `"None"`). -/
def optStr : Option String → String
  | none => "None"
  | some s => s

/-- Minimal JSON value type, standing for the values produced by Python's
`json` module / `requests.Response.json()`. -/
inductive Json where
  | null
  | bool (b : Bool)
  | num (n : Int)
  | str (s : String)
  | arr (elems : List Json)
  | obj (fields : List (String × Json))

/-- A parsed response body: either a decoded JSON value (a Python `dict`,
`list`, …) or a raw text body (a Python `str`).  This is the
`Union[Dict, str]` flowing through `base_client.py`. -/
inductive BodyData where
  | json (v : Json)
  | text (s : String)

/-- Models requests' case-insensitive header dict lookup
`response.headers.get(key, '')`. -/
def headerGet (headers : List (String × String)) (key : String) : String :=
  match headers.find? (fun p => pyLower p.1 = pyLower key) with
  | some p => p.2
  | none => ""

/-- Models `AlmaResponse` from `src/src/core/base_client.py` (lines 34-44).
`success` is computed in `__init__` as `200 <= status_code < 300`. -/
structure AlmaResponse where
  data : BodyData
  status_code : ℕ
  headers : List (String × String)
  success : Bool
  request_url : Option String
  request_method : Option String

/-- Models the `AlmaResponse.__init__` constructor: `success` is derived
from the status code, every other field is stored as passed. -/
def AlmaResponse.make (data : BodyData) (status_code : ℕ)
    (headers : List (String × String)) (request_url request_method : Option String) :
    AlmaResponse :=
  { data := data, status_code := status_code, headers := headers,
    success := decide (200 ≤ status_code ∧ status_code < 300),
    request_url := request_url, request_method := request_method }

/-- Models `AlmaResponse.json` (base_client.py lines 46-50): if the stored
data is a `str`, run `json.loads` on it (which can raise, hence `Option`);
otherwise return the stored data unchanged. -/
def AlmaResponse.jsonAcc (loads : String → Option Json) (r : AlmaResponse) :
    Option Json :=
  match r.data with
  | .text s => loads s
  | .json v => some v

/-- Models `AlmaResponse.text` (base_client.py lines 52-56): if the stored
data is a `dict`, return `json.dumps(data)`; otherwise return the stored
data unchanged (Python returns it as-is even when it is not a `str`). -/
def AlmaResponse.textAcc (dumps : Json → String) (r : AlmaResponse) : BodyData :=
  match r.data with
  | .json (.obj fields) => .text (dumps (.obj fields))
  | d => d

/-- Models `BaseAPIClient.DEFAULT_RATE_LIMIT`. -/
def DEFAULT_RATE_LIMIT : ℕ := 100

/-- Models `BaseAPIClient.RETRY_STATUS_CODES`. -/
def RETRY_STATUS_CODES : List ℕ := [429, 500, 502, 503, 504]

/-- Models `BaseAPIClient.MAX_RETRIES`. -/
def MAX_RETRIES : ℕ := 3

/-- Models `BaseAPIClient.RETRY_DELAY` (seconds). -/
def RETRY_DELAY : ℕ := 1

/-- Models `BaseAPIClient._enforce_rate_limit` (base_client.py lines 94-109)
as a pure function of the recorded timestamps, the configured limit and the
current clock value `now`.  Returns `none` where Python would raise
`IndexError` (`self._request_times[0]` on an empty list, reachable only with
a non-positive limit), otherwise `some (slept, new_request_times)` where
`slept` is the duration passed to `time.sleep` (0 when no sleep happens). -/
def enforce_rate_limit (request_times : List ℚ) (rate_limit : ℕ) (now : ℚ) :
    Option (ℚ × List ℚ) :=
  let kept := request_times.filter (fun t => now - t < 60)
  if rate_limit ≤ kept.length then
    match kept with
    | [] => none
    | t0 :: _ =>
        let sleep_time := 60 - (now - t0)
        some ((if 0 < sleep_time then sleep_time else 0), kept ++ [now])
  else
    some (0, kept ++ [now])

/-- Models `BaseAPIClient._parse_response` (base_client.py lines 139-150):
lowercase the declared content type; if it contains `application/json`, try
`response.json()` and fall back to `response.text` on a decode error;
otherwise return `response.text`. -/
def parse_response (loads : String → Option Json) (contentType body : String) :
    BodyData :=
  if strContains (pyLower contentType) "application/json" then
    match loads body with
    | some v => .json v
    | none => .text body
  else .text body

/-- Exception classes of `base_client.py` (lines 11-31): `AlmaAPIError` and
its subclasses.  The spec's error taxonomy is by kind, not type name; the
code has no dedicated transient-server class and uses the base
`AlmaAPIError` for 5xx statuses. -/
inductive ErrKind where
  | api
  | rateLimit
  | authentication
  | validation
deriving DecidableEq

/-- A raised Alma exception: its class together with the `status_code` and
`response_data` attributes (base_client.py lines 13-16).  The human-readable
`message` string (assembled in `_handle_error_response` from the parsed
error body) is diagnostic text and is not modelled. -/
structure AlmaError where
  kind : ErrKind
  status_code : Option ℕ
  response_data : Option BodyData

/-- Models `BaseAPIClient._handle_error_response` (base_client.py lines
152-181): parse the error body, then map the status code to an exception
class — 401 to `AlmaAuthenticationError`, 429 to `AlmaRateLimitError`,
400/422 to `AlmaValidationError`, anything else (404, 5xx, …) to the base
`AlmaAPIError` — always attaching status code and parsed body. -/
def handle_error_response (loads : String → Option Json)
    (status_code : ℕ) (contentType body : String) : AlmaError :=
  let error_data := parse_response loads contentType body
  if status_code = 401 then
    { kind := .authentication, status_code := some status_code,
      response_data := some error_data }
  else if status_code = 429 then
    { kind := .rateLimit, status_code := some status_code,
      response_data := some error_data }
  else if status_code ∈ [400, 422] then
    { kind := .validation, status_code := some status_code,
      response_data := some error_data }
  else
    { kind := .api, status_code := some status_code,
      response_data := some error_data }

/-- An HTTP response as seen from `requests`:
status code, headers, and raw body text. -/
structure HttpResp where
  status_code : ℕ
  headers : List (String × String)
  body : String

/-- Outcome of one attempt of the underlying `requests.<verb>` call: either
a response or a raised `requests.RequestException` (timeout, connection
error, …). -/
inductive TransportOutcome where
  | resp (r : HttpResp)
  | netError (msg : String)

/-- Result of `BaseAPIClient._make_request`: a returned `AlmaResponse` or a
raised exception. -/
inductive ReqResult where
  | ok (r : AlmaResponse)
  | error (e : AlmaError)

/-- Tests whether a `ReqResult` is a raised exception. -/
def ReqResult.isError : ReqResult → Bool
  | .ok _ => false
  | .error _ => true

/-- Models `BaseAPIClient._make_request` (base_client.py lines 183-237).

The transport parameter stands for the `requests.get/post/put/delete`
call: it receives exactly the arguments the Python code passes
(`method`, `url`, `headers`, `data`, `params`) plus the attempt number
(so that successive attempts of the same request can see different remote
outcomes), and yields that attempt's outcome.  The recursive retry call
forwards `method`, `url`, `headers`, `data`, `params` unchanged, exactly as
line 221 of the source does, incrementing only `retry_count`.

Returns the result together with the list of back-off delays slept
(seconds), in order; `RETRY_DELAY * 2 ** retry_count` per retried attempt.
The `_enforce_rate_limit()` call at the top of the Python function only
affects timing, never the result; it is modelled separately as
`enforce_rate_limit`. -/
def make_request (loads : String → Option Json)
    (method url : String) (headers : List (String × String))
    (data : Option BodyData) (params : List (String × String))
    (transport : String → String → List (String × String) → Option BodyData →
      List (String × String) → ℕ → TransportOutcome)
    (retry_count : ℕ) : ReqResult × List ℕ :=
  if pyUpper method = "GET" ∨ pyUpper method = "POST" ∨ pyUpper method = "PUT" ∨
      pyUpper method = "DELETE" then
    match transport method url headers data params retry_count with
    | .netError _ =>
        -- `except requests.RequestException` → `raise AlmaAPIError(...)`:
        -- a bare message, no status_code / response_data (lines 235-237).
        (.error { kind := .api, status_code := none, response_data := none }, [])
    | .resp response =>
        if 400 ≤ response.status_code then
          -- `if not response.ok` (requests: ok iff status < 400)
          if h : response.status_code ∈ RETRY_STATUS_CODES ∧
              retry_count < MAX_RETRIES then
            let rest := make_request loads method url headers data params
              transport (retry_count + 1)
            (rest.1, RETRY_DELAY * 2 ^ retry_count :: rest.2)
          else
            (.error (handle_error_response loads response.status_code
              (headerGet response.headers "Content-Type") response.body), [])
        else
          (.ok (AlmaResponse.make
            (parse_response loads (headerGet response.headers "Content-Type")
              response.body)
            response.status_code response.headers (some url) (some method)), [])
  else
    -- `raise AlmaValidationError(f"Unsupported HTTP method: {method}")`
    (.error { kind := .validation, status_code := none, response_data := none }, [])
termination_by MAX_RETRIES - retry_count
decreasing_by simp_wf; omega

/-- Models `AlmaAPIClient.safe_request` (AlmaAPIClient.py lines 230-268).
The underlying verb call's outcome is the `outcome` parameter.  Every
failure path — unsupported method (`ValueError`), transport exception,
`response.raise_for_status()` on a status `>= 400` — is caught by the
blanket `except` clauses and converted to `None`; on success it returns
`response.json()` when the body parses, else `response.text`. -/
def safe_request (loads : String → Option Json) (method : String)
    (outcome : TransportOutcome) : Option BodyData :=
  if pyUpper method = "GET" ∨ pyUpper method = "POST" ∨ pyUpper method = "PUT" ∨
      pyUpper method = "DELETE" then
    match outcome with
    | .netError _ => none
    | .resp r =>
        if 400 ≤ r.status_code then none
        else
          match loads r.body with
          | some v => some (.json v)
          | none => some (.text r.body)
  else none

/-- Models `ConfigManager.REQUIRED_ENV_VARS` (config_manager.py lines 10-17). -/
def REQUIRED_ENV_VARS : List String :=
  ["ALMA_SB_API_KEY", "ALMA_PROD_API_KEY", "AWS_ACCESS_KEY", "AWS_SECRET",
   "ALMA_SB_BUCKET_NAME", "ALMA_PROD_BUCKET_NAME"]

/-- Models the instance state of `ConfigManager` (config_manager.py
lines 19-31). -/
structure CMState where
  current_environment : Option String
  api_key_sb : Option String
  api_key_prod : Option String
  aws_access_key : Option String
  aws_secret_key : Option String
  sb_bucket_name : Option String
  prod_bucket_name : Option String
  inst_code : String
  base_url : String
  headers : Option (List (String × String))

/-- Field values set by `ConfigManager.__init__` before
`load_env_variables` runs (config_manager.py lines 19-31). -/
def initialCMState : CMState :=
  { current_environment := none, api_key_sb := none, api_key_prod := none,
    aws_access_key := none, aws_secret_key := none, sb_bucket_name := none,
    prod_bucket_name := none, inst_code := "972TAU_INST",
    base_url := "https://api-eu.hosted.exlibrisgroup.com", headers := none }

/-- Exceptions raised inside `ConfigManager`: the `EnvironmentError` of
`load_env_variables` (carrying the list of missing variable names that the
message enumerates via `', '.join(missing_vars)`), and the `ValueError` of
`set_headers`. -/
inductive CMError where
  | missingVars (missing : List String)
  | invalidEnvironment (msg : String)

/-- Models `ConfigManager.set_headers` (config_manager.py lines 61-81):
accepts exactly `'SB'` or `'PROD'`, installing headers built from the
matching stored API key; any other value raises `ValueError`. -/
def ConfigManager.set_headers (st : CMState) (environment : String) :
    Except String CMState :=
  if environment = "SB" then
    .ok { st with headers := some (
      [("authorization", "apikey " ++ optStr st.api_key_sb),
       ("accept", "application/json"),
       ("content-type", "application/json; charset=utf-8")]) }
  else if environment = "PROD" then
    .ok { st with headers := some (
      [("authorization", "apikey " ++ optStr st.api_key_prod),
       ("accept", "application/json"),
       ("content-type", "application/json; charset=utf-8")]) }
  else
    .error ("Invalid environment: " ++ environment)

/-- Models `ConfigManager.set_environment` (config_manager.py lines 51-59).
Python assigns `self.current_environment = environment.upper()` before
calling `set_headers`, so on failure the state returned alongside the error
already carries the new (invalid) environment name. -/
def ConfigManager.set_environment (st : CMState) (environment : String) :
    CMState × Option String :=
  let st1 := { st with current_environment := some (pyUpper environment) }
  match ConfigManager.set_headers st1 (pyUpper environment) with
  | .ok st2 => (st2, none)
  | .error e => (st1, some e)

/-- Models `ConfigManager.load_env_variables` (config_manager.py lines
33-49): collect the required variables absent from the environment mapping
(`var not in self.env` — a presence test, so an empty-string value counts
as present); if any are missing raise `EnvironmentError` enumerating them;
otherwise store each value, and re-run `set_headers` when a current
environment is already set (truthy). -/
def ConfigManager.load_env_variables (envm : String → Option String)
    (st : CMState) : Except CMError CMState :=
  let missing := REQUIRED_ENV_VARS.filter (fun v => (envm v).isNone)
  if missing.isEmpty then
    let st1 := { st with
      api_key_sb := envm "ALMA_SB_API_KEY",
      api_key_prod := envm "ALMA_PROD_API_KEY",
      aws_access_key := envm "AWS_ACCESS_KEY",
      aws_secret_key := envm "AWS_SECRET",
      sb_bucket_name := envm "ALMA_SB_BUCKET_NAME",
      prod_bucket_name := envm "ALMA_PROD_BUCKET_NAME" }
    if pyTruthyOpt st1.current_environment then
      match ConfigManager.set_headers st1 (optStr st1.current_environment) with
      | .ok st2 => .ok st2
      | .error e => .error (.invalidEnvironment e)
    else .ok st1
  else .error (.missingVars missing)

/-- Models `ConfigManager.__init__` (config_manager.py lines 19-31):
initialize the fields, then run `load_env_variables`; a raised
`EnvironmentError` propagates out of construction. -/
def ConfigManager.init (envm : String → Option String) : Except CMError CMState :=
  ConfigManager.load_env_variables envm initialCMState

/-- Models the instance state of `AlmaAPIClient`
(AlmaAPIClient.py lines 27-62). -/
structure AClientState where
  environment : String
  api_key : Option String
  base_url : String
  default_headers : List (String × String)

/-- Base URL constant of `AlmaAPIClient._load_configuration`
(AlmaAPIClient.py line 52). -/
def ALMA_BASE_URL : String := "https://api-eu.hosted.exlibrisgroup.com"

/-- Models `AlmaAPIClient._load_configuration` (AlmaAPIClient.py lines
38-54): accepts exactly `'SANDBOX'` or `'PRODUCTION'` as
`self.environment`, reading the matching key from the process environment.
Python assigns `self.api_key = os.getenv(...)` before the truthiness check,
so on a missing/empty key the returned state carries the overwritten
`api_key`; `self.base_url` is only assigned after a successful check.
Returns the new state and the raised `ValueError` message, if any. -/
def AlmaAPIClient.load_configuration (envm : String → Option String)
    (st : AClientState) : AClientState × Option String :=
  if st.environment = "SANDBOX" then
    let k := envm "ALMA_SB_API_KEY"
    let st1 := { st with api_key := k }
    if pyTruthyOpt k then ({ st1 with base_url := ALMA_BASE_URL }, none)
    else (st1, some "ALMA_SB_API_KEY environment variable not set")
  else if st.environment = "PRODUCTION" then
    let k := envm "ALMA_PROD_API_KEY"
    let st1 := { st with api_key := k }
    if pyTruthyOpt k then ({ st1 with base_url := ALMA_BASE_URL }, none)
    else (st1, some "ALMA_PROD_API_KEY environment variable not set")
  else (st, some "Environment must be 'SANDBOX' or 'PRODUCTION'")

/-- Models `AlmaAPIClient._setup_headers` (AlmaAPIClient.py lines 56-62). -/
def AlmaAPIClient.setup_headers (st : AClientState) : AClientState :=
  { st with default_headers :=
      [("Authorization", "apikey " ++ optStr st.api_key),
       ("Accept", "application/json"),
       ("Content-Type", "application/json")] }

/-- Models `AlmaAPIClient.__init__` (AlmaAPIClient.py lines 27-36):
uppercase the requested environment, load configuration (a `ValueError`
propagates, aborting construction), then set up headers. -/
def AlmaAPIClient.init (envm : String → Option String) (environment : String) :
    AClientState × Option String :=
  let st0 : AClientState :=
    { environment := pyUpper environment, api_key := none, base_url := "",
      default_headers := [] }
  match AlmaAPIClient.load_configuration envm st0 with
  | (st1, some e) => (st1, some e)
  | (st1, none) => (AlmaAPIClient.setup_headers st1, none)

/-- Models `AlmaAPIClient.switch_environment` (AlmaAPIClient.py lines
200-218): set the new environment name and re-run configuration; on
failure, revert to the old environment name, re-run configuration and
header setup for it, and re-raise the original error (or the revert's own
error if the revert itself raises). -/
def AlmaAPIClient.switch_environment (envm : String → Option String)
    (st : AClientState) (new_environment : String) : AClientState × Option String :=
  let old_env := st.environment
  let st1 := { st with environment := pyUpper new_environment }
  match AlmaAPIClient.load_configuration envm st1 with
  | (st2, none) => (AlmaAPIClient.setup_headers st2, none)
  | (st2, some e) =>
      let st3 := { st2 with environment := old_env }
      match AlmaAPIClient.load_configuration envm st3 with
      | (st4, none) => (AlmaAPIClient.setup_headers st4, some e)
      | (st4, some e2) => (st4, some e2)

/-- State of `AlmaClient` from `src/client.py` relevant to environment
switching: the owned `ConfigManager` plus the `headers` / `base_url`
fields of the owned `BaseAPIClient`. -/
structure AlmaClientState where
  config : CMState
  bcHeaders : Option (List (String × String))
  bcBaseUrl : String

/-- Models `AlmaClient.switch_environment` (client.py lines 63-88): run
`config_manager.set_environment`, copy the resulting headers and base URL
into the base client, then test the connection (`test_conn` is the outcome
of that network call) and return `True`/`False`.  Any exception —
including the `ValueError` from an invalid environment name, raised after
`current_environment` was already reassigned — is caught, logged and
converted to `False`. -/
def AlmaClient.switch_environment (st : AlmaClientState) (environment : String)
    (test_conn : Bool) : AlmaClientState × Bool :=
  match ConfigManager.set_environment st.config environment with
  | (cm1, some _) => ({ st with config := cm1 }, false)
  | (cm1, none) =>
      ({ config := cm1, bcHeaders := cm1.headers, bcBaseUrl := cm1.base_url },
       test_conn)

/-- A fully-loaded `ConfigManager` state, as after a successful
construction with all six required variables present. -/
def cmReady : CMState :=
  { initialCMState with
    api_key_sb := some "sb-key", api_key_prod := some "prod-key",
    aws_access_key := some "a", aws_secret_key := some "s",
    sb_bucket_name := some "b1", prod_bucket_name := some "b2" }

/-- Headers that `ConfigManager.set_headers` installs for the sandbox
environment of `cmReady`. -/
def sbHeadersReady : List (String × String) :=
  [("authorization", "apikey sb-key"),
   ("accept", "application/json"),
   ("content-type", "application/json; charset=utf-8")]

/-- An `AlmaClient` whose gateway is actively configured for `SB`. -/
def c3ClientState : AlmaClientState :=
  { config := { cmReady with current_environment := some "SB",
                              headers := some sbHeadersReady },
    bcHeaders := some sbHeadersReady,
    bcBaseUrl := "https://api-eu.hosted.exlibrisgroup.com" }

/-- A process environment holding only the sandbox API key. -/
def envSbOnly : String → Option String :=
  fun v => if v = "ALMA_SB_API_KEY" then some "sbk" else none

/-- The `AlmaAPIClient` state constructed by `AlmaAPIClient.init envSbOnly
"SANDBOX"`. -/
def aclientSandbox : AClientState :=
  { environment := "SANDBOX", api_key := some "sbk",
    base_url := ALMA_BASE_URL,
    default_headers := [("Authorization", "apikey sbk"),
      ("Accept", "application/json"),
      ("Content-Type", "application/json")] }

/-- C8: for every JSON dictionary `d`, a `Response` constructed from `d`
read back through the JSON accessor yields `d` unchanged; a raw string body
parsed under a non-JSON content type is returned unmodified by the text
accessor; and the success flag is true exactly when
`200 <= status_code < 300`. -/
theorem c8_response_round_trip (loads : String → Option Json)
    (dumps : Json → String) (d : List (String × Json)) (status : ℕ)
    (hs : List (String × String)) (u m : Option String) (ct body : String)
    (hct : strContains (pyLower ct) "application/json" = false) :
    AlmaResponse.jsonAcc loads (AlmaResponse.make (.json (.obj d)) status hs u m) =
      some (.obj d)
    ∧ AlmaResponse.textAcc dumps
        (AlmaResponse.make (parse_response loads ct body) status hs u m) =
      .text body
    ∧ ((AlmaResponse.make (.json (.obj d)) status hs u m).success = true ↔
        200 ≤ status ∧ status < 300) := by
  refine ⟨rfl, ?_, by simp [AlmaResponse.make]⟩
  simp [parse_response, hct, AlmaResponse.textAcc, AlmaResponse.make]

/-- Witness for `c8_response_round_trip` at a concrete dictionary, raw
body, content type and status code. -/
theorem c8_response_round_trip_witness :
    strContains (pyLower "text/plain") "application/json" = false
    ∧ (AlmaResponse.jsonAcc (fun _ => none)
        (AlmaResponse.make (.json (.obj [("a", .num 1)])) 204 [] none none) =
        some (.obj [("a", .num 1)])
      ∧ AlmaResponse.textAcc (fun _ => "")
          (AlmaResponse.make (parse_response (fun _ => none) "text/plain" "hello")
            204 [] none none) =
        .text "hello"
      ∧ ((AlmaResponse.make (.json (.obj [("a", .num 1)])) 204 [] none none).success
          = true ↔ 200 ≤ 204 ∧ 204 < 300)) :=
  ⟨by decide,
   c8_response_round_trip (fun _ => none) (fun _ => "") [("a", .num 1)] 204 []
     none none "text/plain" "hello" (by decide)⟩

/-- C10: for every response whose declared Content-Type contains
`application/json` but whose body does not parse as JSON, `_parse_response`
does not raise — it is total and falls back to the raw body text — and a
successful `_make_request` call with such a body still returns a normal
`AlmaResponse` carrying the raw text. -/
theorem c10_malformed_json_fallback (loads : String → Option Json)
    (method url : String) (headers : List (String × String))
    (data : Option BodyData) (params : List (String × String))
    (transport : String → String → List (String × String) → Option BodyData →
      List (String × String) → ℕ → TransportOutcome)
    (n : ℕ) (r : HttpResp) (ct : String)
    (hm : pyUpper method = "GET" ∨ pyUpper method = "POST" ∨
      pyUpper method = "PUT" ∨ pyUpper method = "DELETE")
    (hct : strContains (pyLower ct) "application/json" = true)
    (hbad : loads r.body = none)
    (htr : transport method url headers data params n = .resp r)
    (hr : r.status_code = 200)
    (hh : headerGet r.headers "Content-Type" = ct) :
    parse_response loads ct r.body = .text r.body
    ∧ make_request loads method url headers data params transport n =
      (.ok (AlmaResponse.make (.text r.body) 200 r.headers (some url)
        (some method)), []) := by
  constructor
  · simp [parse_response, hct, hbad]
  · rw [make_request]
    rw [if_pos hm, htr]
    simp [hr, hh, parse_response, hct, hbad]

/-- Witness for `c10_malformed_json_fallback`: a GET whose 200 response
declares `application/json` but carries the unparsable body `"{oops"`
(every parse attempt fails for the always-failing `loads`). -/
theorem c10_malformed_json_fallback_witness :
    (pyUpper "GET" = "GET" ∨ pyUpper "GET" = "POST" ∨ pyUpper "GET" = "PUT" ∨
      pyUpper "GET" = "DELETE")
    ∧ (parse_response (fun _ => none) "application/json" "bad json" = .text "bad json"
      ∧ make_request (fun _ => none) "GET" "https://x/y" [] none []
          (fun _ _ _ _ _ _ => .resp
            { status_code := 200,
              headers := [("Content-Type", "application/json")],
              body := "bad json" }) 0 =
        (.ok (AlmaResponse.make (.text "bad json") 200
          [("Content-Type", "application/json")] (some "https://x/y")
          (some "GET")), [])) :=
  ⟨Or.inl (by decide),
   c10_malformed_json_fallback (fun _ => none) "GET" "https://x/y" [] none []
     (fun _ _ _ _ _ _ => .resp
       { status_code := 200, headers := [("Content-Type", "application/json")],
         body := "bad json" }) 0
     { status_code := 200, headers := [("Content-Type", "application/json")],
       body := "bad json" }
     "application/json" (Or.inl (by decide)) (by decide) rfl rfl rfl (by decide)⟩

/-- C7: if any required environment variable is absent, `ConfigManager`
construction fails with an error enumerating exactly the missing required
names (in declaration order); if all are present, construction succeeds and
stores each value. -/
theorem c7_required_env_vars (envm : String → Option String) :
    ((∃ v ∈ REQUIRED_ENV_VARS, envm v = none) →
      ConfigManager.init envm =
        .error (.missingVars (REQUIRED_ENV_VARS.filter (fun v => (envm v).isNone)))
      ∧ ∀ v, (v ∈ REQUIRED_ENV_VARS.filter (fun v => (envm v).isNone) ↔
          v ∈ REQUIRED_ENV_VARS ∧ envm v = none))
    ∧ ((∀ v ∈ REQUIRED_ENV_VARS, (envm v).isSome) →
      ConfigManager.init envm = .ok { initialCMState with
        api_key_sb := envm "ALMA_SB_API_KEY",
        api_key_prod := envm "ALMA_PROD_API_KEY",
        aws_access_key := envm "AWS_ACCESS_KEY",
        aws_secret_key := envm "AWS_SECRET",
        sb_bucket_name := envm "ALMA_SB_BUCKET_NAME",
        prod_bucket_name := envm "ALMA_PROD_BUCKET_NAME" }) := by
  constructor
  · rintro ⟨v, hv, hnone⟩
    have hmem : v ∈ REQUIRED_ENV_VARS.filter (fun v => (envm v).isNone) :=
      List.mem_filter.mpr ⟨hv, by simp [hnone]⟩
    have hne : ¬ (REQUIRED_ENV_VARS.filter (fun v => (envm v).isNone)).isEmpty := by
      cases h : REQUIRED_ENV_VARS.filter (fun v => (envm v).isNone) with
      | nil => rw [h] at hmem; cases hmem
      | cons a l => simp [h]
    refine ⟨?_, ?_⟩
    · unfold ConfigManager.init ConfigManager.load_env_variables
      simp only [if_neg hne]
    · intro w
      simp [List.mem_filter, Option.isNone_iff_eq_none]
  · intro hall
    have hnil : REQUIRED_ENV_VARS.filter (fun v => (envm v).isNone) = [] := by
      rw [List.filter_eq_nil_iff]
      intro a ha
      simp [Option.isNone_iff_eq_none]
      exact Option.isSome_iff_ne_none.mp (hall a ha)
    unfold ConfigManager.init ConfigManager.load_env_variables
    rw [hnil]
    simp [initialCMState, pyTruthyOpt]

/-- Witness for `c7_required_env_vars`: one environment missing
`AWS_SECRET` and `ALMA_PROD_BUCKET_NAME` (construction fails enumerating
exactly those two), and one complete environment (construction succeeds). -/
theorem c7_required_env_vars_witness :
    (∃ v ∈ REQUIRED_ENV_VARS,
      (fun w => if w = "AWS_SECRET" ∨ w = "ALMA_PROD_BUCKET_NAME" then none
        else some "v") v = none)
    ∧ (ConfigManager.init
        (fun w => if w = "AWS_SECRET" ∨ w = "ALMA_PROD_BUCKET_NAME" then none
          else some "v") =
        .error (.missingVars (REQUIRED_ENV_VARS.filter (fun v =>
          ((fun w => if w = "AWS_SECRET" ∨ w = "ALMA_PROD_BUCKET_NAME" then none
            else some "v") v).isNone)))
      ∧ ∀ v, (v ∈ REQUIRED_ENV_VARS.filter (fun v =>
          ((fun w => if w = "AWS_SECRET" ∨ w = "ALMA_PROD_BUCKET_NAME" then none
            else some "v") v).isNone) ↔
          v ∈ REQUIRED_ENV_VARS ∧
          (fun w => if w = "AWS_SECRET" ∨ w = "ALMA_PROD_BUCKET_NAME" then none
            else some "v") v = none))
    ∧ ((∀ v ∈ REQUIRED_ENV_VARS, ((fun _ => some "k") v).isSome) →
      ConfigManager.init (fun _ => some "k") = .ok { initialCMState with
        api_key_sb := some "k", api_key_prod := some "k",
        aws_access_key := some "k", aws_secret_key := some "k",
        sb_bucket_name := some "k", prod_bucket_name := some "k" }) :=
  ⟨⟨"AWS_SECRET", by decide, by decide⟩,
   (c7_required_env_vars (fun w =>
      if w = "AWS_SECRET" ∨ w = "ALMA_PROD_BUCKET_NAME" then none
      else some "v")).1 ⟨"AWS_SECRET", by decide, by decide⟩,
   fun _ => (c7_required_env_vars (fun _ => some "k")).2 (fun _ _ => rfl)⟩

/-- C4: `_enforce_rate_limit` first discards timestamps older than 60
seconds; when the retained count is below the limit no sleep happens and
`now` is recorded; when it is at or above the limit, the call sleeps
`60 - (now - oldest)` seconds — after which the oldest retained timestamp
has aged out of the window (`(now + slept) - oldest ≥ 60`) — and then
records `now`.  Consequently, starting from an empty window, each of `N`
back-to-back calls at the same instant under limit `N` sleeps 0, and the
`(N+1)`-th call sleeps the full 60 seconds needed for the oldest timestamp
to age out. -/
theorem c4_rate_limiter (times : List ℚ) (limit N : ℕ) (now t0 : ℚ)
    (ts : List ℚ) (hN : 1 ≤ N) :
    (times.filter (fun t => now - t < 60) = t0 :: ts →
      (((t0 :: ts).length < limit →
        enforce_rate_limit times limit now = some (0, (t0 :: ts) ++ [now]))
      ∧ (limit ≤ (t0 :: ts).length →
        enforce_rate_limit times limit now =
          some (60 - (now - t0), (t0 :: ts) ++ [now])
        ∧ 60 ≤ (now + (60 - (now - t0))) - t0)))
    ∧ (∀ k, k < N →
      enforce_rate_limit (List.replicate k now) N now =
        some (0, List.replicate (k + 1) now))
    ∧ enforce_rate_limit (List.replicate N now) N now =
        some (60, List.replicate N now ++ [now]) := by
  have hrep : ∀ k : ℕ, (List.replicate k now).filter (fun t => now - t < 60) =
      List.replicate k now := by
    intro k
    rw [List.filter_eq_self]
    intro a ha
    have : a = now := List.eq_of_mem_replicate ha
    simp [this]
  refine ⟨?_, ?_, ?_⟩
  · intro hfilter
    have ht0 : now - t0 < 60 := by
      have hmem : t0 ∈ times.filter (fun t => now - t < 60) := by
        rw [hfilter]; exact List.mem_cons_self t0 ts
      simpa using (List.mem_filter.mp hmem).2
    constructor
    · intro hlt
      unfold enforce_rate_limit
      rw [hfilter, if_neg (by omega)]
    · intro hge
      have hpos : (0 : ℚ) < 60 - (now - t0) := by linarith
      constructor
      · unfold enforce_rate_limit
        rw [hfilter, if_pos (by omega)]
        simp only [if_pos hpos]
      · linarith
  · intro k hk
    unfold enforce_rate_limit
    rw [hrep k, if_neg (by simp; omega)]
    rw [← List.replicate_succ' k now]
  · obtain ⟨m, rfl⟩ : ∃ m, N = m + 1 := ⟨N - 1, by omega⟩
    unfold enforce_rate_limit
    rw [hrep (m + 1)]
    rw [if_pos (by simp)]
    simp only [List.replicate_succ]
    norm_num

/-- Witness for `c4_rate_limiter` at limit `N = 2`, retained window
`[0, 10]` and clock `now = 20`. -/
theorem c4_rate_limiter_witness :
    (1 : ℕ) ≤ 2
    ∧ (([(0 : ℚ), 10].filter (fun t => (20 : ℚ) - t < 60) = 0 :: [10] →
      ((((0 : ℚ) :: [10]).length < 2 →
        enforce_rate_limit [0, 10] 2 20 = some (0, ((0 : ℚ) :: [10]) ++ [20]))
      ∧ (2 ≤ ((0 : ℚ) :: [10]).length →
        enforce_rate_limit [0, 10] 2 20 =
          some (60 - (20 - 0), ((0 : ℚ) :: [10]) ++ [20])
        ∧ (60 : ℚ) ≤ (20 + (60 - (20 - 0))) - 0)))
    ∧ (∀ k, k < 2 →
      enforce_rate_limit (List.replicate k (20 : ℚ)) 2 20 =
        some (0, List.replicate (k + 1) (20 : ℚ)))
    ∧ enforce_rate_limit (List.replicate 2 (20 : ℚ)) 2 20 =
        some (60, List.replicate 2 (20 : ℚ) ++ [20])) :=
  ⟨by norm_num, c4_rate_limiter [0, 10] 2 2 20 0 [10] (by norm_num)⟩

/-- Helper: every retryable status code is an error status (`>= 400`), so a
retryable response always takes the `not response.ok` branch. -/
theorem retry_status_ge_400 {s : ℕ} (h : s ∈ RETRY_STATUS_CODES) : 400 ≤ s := by
  simp [RETRY_STATUS_CODES] at h
  rcases h with h | h | h | h | h <;> omega

/-- Helper: general shape of a retry run of `_make_request` that starts at
`retry_count = r0`, sees `j` retryable failures, and then an `ok` response:
it returns the normalized response of the final attempt and sleeps
`RETRY_DELAY * 2 ** (r0 + k)` before retry `k`. -/
theorem make_request_retry_aux (loads : String → Option Json)
    (method url : String) (headers : List (String × String))
    (data : Option BodyData) (params : List (String × String))
    (transport : String → String → List (String × String) → Option BodyData →
      List (String × String) → ℕ → TransportOutcome)
    (hm : pyUpper method = "GET" ∨ pyUpper method = "POST" ∨
      pyUpper method = "PUT" ∨ pyUpper method = "DELETE")
    (j : ℕ) :
    ∀ (r0 : ℕ) (rj : HttpResp), r0 + j ≤ MAX_RETRIES →
      (∀ k, k < j → ∃ r, transport method url headers data params (r0 + k) =
        .resp r ∧ r.status_code ∈ RETRY_STATUS_CODES) →
      transport method url headers data params (r0 + j) = .resp rj →
      rj.status_code < 400 →
      make_request loads method url headers data params transport r0 =
        (.ok (AlmaResponse.make
            (parse_response loads (headerGet rj.headers "Content-Type") rj.body)
            rj.status_code rj.headers (some url) (some method)),
          (List.range j).map (fun k => RETRY_DELAY * 2 ^ (r0 + k))) := by
  induction j with
  | zero =>
      intro r0 rj _ _ hok hrj
      rw [Nat.add_zero] at hok
      rw [make_request, if_pos hm, hok]
      dsimp only
      rw [if_neg (by omega : ¬ 400 ≤ rj.status_code)]
      simp
  | succ j ih =>
      intro r0 rj hle hfail hok hrj
      obtain ⟨r, htr, hs⟩ := hfail 0 (Nat.succ_pos j)
      rw [Nat.add_zero] at htr
      rw [make_request, if_pos hm, htr]
      dsimp only
      rw [if_pos (retry_status_ge_400 hs)]
      rw [dif_pos (⟨hs, by omega⟩ :
        r.status_code ∈ RETRY_STATUS_CODES ∧ r0 < MAX_RETRIES)]
      have ih' := ih (r0 + 1) rj (by omega)
        (fun k hk => by
          have h := hfail (k + 1) (by omega)
          rwa [show r0 + (k + 1) = (r0 + 1) + k by omega] at h)
        (by rwa [show (r0 + 1) + j = r0 + (j + 1) by omega]) hrj
      rw [ih']
      refine congrArg _ ?_
      rw [List.range_succ_eq_map, List.map_cons, List.map_map]
      refine congrArg₂ _ (by norm_num) ?_
      apply List.map_congr_left
      intro k _
      simp only [Function.comp_apply]
      refine congrArg _ ?_
      refine congrArg _ ?_
      omega

/-- C1: for every request whose attempts keep returning a retryable status
(`429/500/502/503/504`), `_make_request` retries with the same
method/URL/headers/body/params (the transport is consulted at identical
arguments, only the attempt number advances) up to `MAX_RETRIES = 3` times,
sleeping `RETRY_DELAY * 2 ** attempt` seconds before attempt `attempt + 1`
(so delays 1s, 2s, 4s); if attempt `j <= 3` gets an `ok` response, a normal
`AlmaResponse` for that response is returned with no error raised. -/
theorem c1_retry_backoff (loads : String → Option Json)
    (method url : String) (headers : List (String × String))
    (data : Option BodyData) (params : List (String × String))
    (transport : String → String → List (String × String) → Option BodyData →
      List (String × String) → ℕ → TransportOutcome)
    (j : ℕ) (rj : HttpResp)
    (hm : pyUpper method = "GET" ∨ pyUpper method = "POST" ∨
      pyUpper method = "PUT" ∨ pyUpper method = "DELETE")
    (hj : j ≤ MAX_RETRIES)
    (hfail : ∀ k, k < j → ∃ r, transport method url headers data params k =
      .resp r ∧ r.status_code ∈ RETRY_STATUS_CODES)
    (hok : transport method url headers data params j = .resp rj)
    (hrj : rj.status_code < 400) :
    make_request loads method url headers data params transport 0 =
      (.ok (AlmaResponse.make
          (parse_response loads (headerGet rj.headers "Content-Type") rj.body)
          rj.status_code rj.headers (some url) (some method)),
        (List.range j).map (fun k => RETRY_DELAY * 2 ^ k)) := by
  have h := make_request_retry_aux loads method url headers data params
    transport hm j 0 rj (by omega)
    (fun k hk => by simpa using hfail k hk) (by simpa using hok) hrj
  simpa using h

/-- Witness for `c1_retry_backoff`: three 503 responses followed by a 200,
giving back-off delays `[1, 2, 4]` and a successful final response. -/
theorem c1_retry_backoff_witness :
    (pyUpper "GET" = "GET" ∨ pyUpper "GET" = "POST" ∨ pyUpper "GET" = "PUT" ∨
      pyUpper "GET" = "DELETE")
    ∧ (3 : ℕ) ≤ MAX_RETRIES
    ∧ make_request (fun _ => none) "GET" "https://x/y" [] none []
        (fun _ _ _ _ _ k => if k < 3 then
          .resp { status_code := 503, headers := [], body := "busy" }
        else
          .resp { status_code := 200,
                  headers := [("Content-Type", "t")],
                  body := "done" }) 0 =
      (.ok (AlmaResponse.make
          (parse_response (fun _ => none)
            (headerGet [("Content-Type", "t")] "Content-Type") "done")
          200 [("Content-Type", "t")] (some "https://x/y") (some "GET")),
        (List.range 3).map (fun k => RETRY_DELAY * 2 ^ k)) :=
  ⟨Or.inl (by decide), by decide,
   c1_retry_backoff (fun _ => none) "GET" "https://x/y" [] none []
     (fun _ _ _ _ _ k => if k < 3 then
       .resp { status_code := 503, headers := [], body := "busy" }
     else
       .resp { status_code := 200,
               headers := [("Content-Type", "t")],
               body := "done" }) 3
     { status_code := 200, headers := [("Content-Type", "t")], body := "done" }
     (Or.inl (by decide)) (by decide)
     (fun k hk => ⟨{ status_code := 503, headers := [], body := "busy" },
       by simp [hk], by decide⟩)
     (by norm_num) (by decide)⟩

/-- C9: a 404 response is never retried — whatever the remaining retry
budget (`retry_count = n` arbitrary), `_make_request` performs no back-off
sleep and immediately raises the mapped error (the base `AlmaAPIError`
carrying status 404 and the parsed body). -/
theorem c9_404_not_retried (loads : String → Option Json)
    (method url : String) (headers : List (String × String))
    (data : Option BodyData) (params : List (String × String))
    (transport : String → String → List (String × String) → Option BodyData →
      List (String × String) → ℕ → TransportOutcome)
    (n : ℕ) (r : HttpResp)
    (hm : pyUpper method = "GET" ∨ pyUpper method = "POST" ∨
      pyUpper method = "PUT" ∨ pyUpper method = "DELETE")
    (htr : transport method url headers data params n = .resp r)
    (h404 : r.status_code = 404) :
    make_request loads method url headers data params transport n =
      (.error { kind := .api,
                status_code := some 404,
                response_data := some (parse_response loads
                  (headerGet r.headers "Content-Type") r.body) }, []) := by
  rw [make_request, if_pos hm, htr]
  dsimp only
  rw [if_pos (by omega : 400 ≤ r.status_code)]
  rw [dif_neg (by rw [h404]; simp [RETRY_STATUS_CODES])]
  simp [handle_error_response, h404]

/-- Witness for `c9_404_not_retried`: a constant-404 transport queried with
two retries of budget already consumed (`retry_count = 2`). -/
theorem c9_404_not_retried_witness :
    (pyUpper "GET" = "GET" ∨ pyUpper "GET" = "POST" ∨ pyUpper "GET" = "PUT" ∨
      pyUpper "GET" = "DELETE")
    ∧ make_request (fun _ => none) "GET" "https://x/y" [] none []
        (fun _ _ _ _ _ _ =>
          .resp { status_code := 404, headers := [], body := "missing" }) 2 =
      (.error { kind := .api,
                status_code := some 404,
                response_data := some (parse_response (fun _ => none)
                  (headerGet ([] : List (String × String)) "Content-Type")
                  "missing") }, []) :=
  ⟨Or.inl (by decide),
   c9_404_not_retried (fun _ => none) "GET" "https://x/y" [] none []
     (fun _ _ _ _ _ _ =>
       .resp { status_code := 404, headers := [], body := "missing" }) 2
     { status_code := 404, headers := [], body := "missing" }
     (Or.inl (by decide)) rfl rfl⟩

/-- Helper: when every attempt returns the same retryable response,
`_make_request` consumes the whole retry budget (sleeping 1s, 2s, 4s) and
then raises the error produced by `_handle_error_response`. -/
theorem make_request_exhausted (loads : String → Option Json)
    (method url : String) (headers : List (String × String))
    (data : Option BodyData) (params : List (String × String))
    (transport : String → String → List (String × String) → Option BodyData →
      List (String × String) → ℕ → TransportOutcome)
    (r : HttpResp)
    (hm : pyUpper method = "GET" ∨ pyUpper method = "POST" ∨
      pyUpper method = "PUT" ∨ pyUpper method = "DELETE")
    (htr : ∀ k, transport method url headers data params k = .resp r)
    (hs : r.status_code ∈ RETRY_STATUS_CODES) :
    make_request loads method url headers data params transport 0 =
      (.error (handle_error_response loads r.status_code
        (headerGet r.headers "Content-Type") r.body), [1, 2, 4]) := by
  have h400 := retry_status_ge_400 hs
  rw [make_request, if_pos hm, htr 0]
  dsimp only
  rw [if_pos h400, dif_pos (⟨hs, by decide⟩ :
    r.status_code ∈ RETRY_STATUS_CODES ∧ 0 < MAX_RETRIES)]
  rw [make_request, if_pos hm, htr 1]
  dsimp only
  rw [if_pos h400, dif_pos (⟨hs, by decide⟩ :
    r.status_code ∈ RETRY_STATUS_CODES ∧ 1 < MAX_RETRIES)]
  rw [make_request, if_pos hm, htr 2]
  dsimp only
  rw [if_pos h400, dif_pos (⟨hs, by decide⟩ :
    r.status_code ∈ RETRY_STATUS_CODES ∧ 2 < MAX_RETRIES)]
  rw [make_request, if_pos hm, htr 3]
  dsimp only
  rw [if_pos h400, dif_neg (by simp [MAX_RETRIES] :
    ¬ (r.status_code ∈ RETRY_STATUS_CODES ∧ 3 < MAX_RETRIES))]
  simp [RETRY_DELAY]

/-- C5: mapping of unretried / retry-exhausted failures to error kinds, for
a remote that keeps answering with the same response `r`: status 401 raises
`AlmaAuthenticationError` immediately (no retry, no sleep); status 429
raises `AlmaRateLimitError` with status and parsed body attached after the
retry budget (delays 1s, 2s, 4s) is exhausted; a status in
{500, 502, 503, 504} raises, after the same exhausted budget, the error the
code uses for transient server failures — the base `AlmaAPIError`, likewise
carrying status and body (the spec's taxonomy is by kind, not type name:
base_client.py defines no dedicated transient-server exception class). -/
theorem c5_error_kinds (loads : String → Option Json)
    (method url : String) (headers : List (String × String))
    (data : Option BodyData) (params : List (String × String))
    (transport : String → String → List (String × String) → Option BodyData →
      List (String × String) → ℕ → TransportOutcome)
    (r : HttpResp)
    (hm : pyUpper method = "GET" ∨ pyUpper method = "POST" ∨
      pyUpper method = "PUT" ∨ pyUpper method = "DELETE")
    (htr : ∀ k, transport method url headers data params k = .resp r) :
    (r.status_code = 401 →
      make_request loads method url headers data params transport 0 =
        (.error { kind := .authentication,
                  status_code := some 401,
                  response_data := some (parse_response loads
                    (headerGet r.headers "Content-Type") r.body) }, []))
    ∧ (r.status_code = 429 →
      make_request loads method url headers data params transport 0 =
        (.error { kind := .rateLimit,
                  status_code := some 429,
                  response_data := some (parse_response loads
                    (headerGet r.headers "Content-Type") r.body) }, [1, 2, 4]))
    ∧ (r.status_code ∈ [500, 502, 503, 504] →
      make_request loads method url headers data params transport 0 =
        (.error { kind := .api,
                  status_code := some r.status_code,
                  response_data := some (parse_response loads
                    (headerGet r.headers "Content-Type") r.body) }, [1, 2, 4])) := by
  refine ⟨?_, ?_, ?_⟩
  · intro h401
    rw [make_request, if_pos hm, htr 0]
    dsimp only
    rw [if_pos (by omega : 400 ≤ r.status_code)]
    rw [dif_neg (by rw [h401]; simp [RETRY_STATUS_CODES])]
    simp [handle_error_response, h401]
  · intro h429
    rw [make_request_exhausted loads method url headers data params transport
      r hm htr (by rw [h429]; decide)]
    simp [handle_error_response, h429]
  · intro h5xx
    have hmem : r.status_code ∈ RETRY_STATUS_CODES := by
      have h : r.status_code = 500 ∨ r.status_code = 502 ∨ r.status_code = 503 ∨
          r.status_code = 504 := by simpa using h5xx
      rcases h with h | h | h | h <;> rw [h] <;> decide
    rw [make_request_exhausted loads method url headers data params transport
      r hm htr hmem]
    have hne : r.status_code ≠ 401 ∧ r.status_code ≠ 429 ∧
        r.status_code ∉ [400, 422] := by
      simp at h5xx
      rcases h5xx with h | h | h | h <;> simp [h]
    simp [handle_error_response, hne.1, hne.2.1, hne.2.2]

/-- Witness for `c5_error_kinds`: constant-401, constant-429 and
constant-503 remotes. -/
theorem c5_error_kinds_witness :
    (pyUpper "GET" = "GET" ∨ pyUpper "GET" = "POST" ∨ pyUpper "GET" = "PUT" ∨
      pyUpper "GET" = "DELETE")
    ∧ make_request (fun _ => none) "GET" "https://x/y" [] none []
        (fun _ _ _ _ _ _ =>
          .resp { status_code := 401, headers := [], body := "denied" }) 0 =
      (.error { kind := .authentication,
                status_code := some 401,
                response_data := some (parse_response (fun _ => none)
                  (headerGet ([] : List (String × String)) "Content-Type")
                  "denied") }, [])
    ∧ make_request (fun _ => none) "GET" "https://x/y" [] none []
        (fun _ _ _ _ _ _ =>
          .resp { status_code := 429, headers := [], body := "slow down" }) 0 =
      (.error { kind := .rateLimit,
                status_code := some 429,
                response_data := some (parse_response (fun _ => none)
                  (headerGet ([] : List (String × String)) "Content-Type")
                  "slow down") }, [1, 2, 4])
    ∧ make_request (fun _ => none) "GET" "https://x/y" [] none []
        (fun _ _ _ _ _ _ =>
          .resp { status_code := 503, headers := [], body := "busy" }) 0 =
      (.error { kind := .api,
                status_code := some 503,
                response_data := some (parse_response (fun _ => none)
                  (headerGet ([] : List (String × String)) "Content-Type")
                  "busy") }, [1, 2, 4]) :=
  ⟨Or.inl (by decide),
   (c5_error_kinds (fun _ => none) "GET" "https://x/y" [] none []
     (fun _ _ _ _ _ _ =>
       .resp { status_code := 401, headers := [], body := "denied" })
     { status_code := 401, headers := [], body := "denied" }
     (Or.inl (by decide)) (fun _ => rfl)).1 rfl,
   (c5_error_kinds (fun _ => none) "GET" "https://x/y" [] none []
     (fun _ _ _ _ _ _ =>
       .resp { status_code := 429, headers := [], body := "slow down" })
     { status_code := 429, headers := [], body := "slow down" }
     (Or.inl (by decide)) (fun _ => rfl)).2.1 rfl,
   (c5_error_kinds (fun _ => none) "GET" "https://x/y" [] none []
     (fun _ _ _ _ _ _ =>
       .resp { status_code := 503, headers := [], body := "busy" })
     { status_code := 503, headers := [], body := "busy" }
     (Or.inl (by decide)) (fun _ => rfl)).2.2 (by decide)⟩

/-- Helper: if every attempt the transport can produce fails (a raised
`RequestException` or a response with status `>= 400`), `_make_request`
raises — whatever retry count it starts at. -/
theorem make_request_all_fail_raises (loads : String → Option Json)
    (method url : String) (headers : List (String × String))
    (data : Option BodyData) (params : List (String × String))
    (transport : String → String → List (String × String) → Option BodyData →
      List (String × String) → ℕ → TransportOutcome)
    (hm : pyUpper method = "GET" ∨ pyUpper method = "POST" ∨
      pyUpper method = "PUT" ∨ pyUpper method = "DELETE")
    (hfail : ∀ k (r : HttpResp),
      transport method url headers data params k = .resp r →
      400 ≤ r.status_code) :
    ∀ (d n : ℕ), MAX_RETRIES ≤ n + d →
      (make_request loads method url headers data params transport n).1.isError
        = true := by
  intro d
  induction d with
  | zero =>
      intro n hn
      rw [make_request, if_pos hm]
      cases htr : transport method url headers data params n with
      | netError msg => simp [ReqResult.isError]
      | resp r =>
          dsimp only
          rw [if_pos (hfail n r htr)]
          rw [dif_neg (by omega :
            ¬ (r.status_code ∈ RETRY_STATUS_CODES ∧ n < MAX_RETRIES))]
          simp [ReqResult.isError]
  | succ d ih =>
      intro n hn
      rw [make_request, if_pos hm]
      cases htr : transport method url headers data params n with
      | netError msg => simp [ReqResult.isError]
      | resp r =>
          dsimp only
          rw [if_pos (hfail n r htr)]
          by_cases hc : r.status_code ∈ RETRY_STATUS_CODES ∧ n < MAX_RETRIES
          · rw [dif_pos hc]
            exact ih (n + 1) (by omega)
          · rw [dif_neg hc]
            simp [ReqResult.isError]

/-- C6 counterexample: the claim says failures are never converted to a
soft null result at the gateway layer, null conversion being reserved for
calling/domain code — but `AlmaAPIClient.safe_request`, a method of the
gateway class itself, catches the `HTTPError` raised by
`raise_for_status()` on this 500 response and returns `None`. -/
theorem c6_gateway_null_counterexample :
    safe_request (fun _ => none) "GET"
      (.resp { status_code := 500, headers := [], body := "boom" }) = none := by
  rfl

/-- C6 as amended: the request executor `BaseAPIClient._make_request` does
raise on every failing call — when every attempt fails it never returns a
normal response — but null conversion is not exclusive to calling/domain
code: the gateway-layer utility `AlmaAPIClient.safe_request` catches every
failure (transport exception or HTTP error status alike) and converts it to
`None`. -/
theorem c6_amended_propagation (loads : String → Option Json)
    (method url : String) (headers : List (String × String))
    (data : Option BodyData) (params : List (String × String))
    (transport : String → String → List (String × String) → Option BodyData →
      List (String × String) → ℕ → TransportOutcome)
    (n : ℕ) (outcome : TransportOutcome)
    (hm : pyUpper method = "GET" ∨ pyUpper method = "POST" ∨
      pyUpper method = "PUT" ∨ pyUpper method = "DELETE") :
    ((∀ k (r : HttpResp),
        transport method url headers data params k = .resp r →
        400 ≤ r.status_code) →
      (make_request loads method url headers data params transport n).1.isError
        = true)
    ∧ ((∀ r : HttpResp, outcome = .resp r → 400 ≤ r.status_code) →
      safe_request loads method outcome = none) := by
  constructor
  · intro hfail
    exact make_request_all_fail_raises loads method url headers data params
      transport hm hfail MAX_RETRIES n (by omega)
  · intro hout
    rw [safe_request.eq_def, if_pos hm]
    cases outcome with
    | netError msg => rfl
    | resp r =>
        dsimp only
        rw [if_pos (hout r rfl)]

/-- Witness for `c6_amended_propagation`: a constant-503 transport (the
executor raises) and a 500 response outcome (`safe_request` yields
`None`). -/
theorem c6_amended_propagation_witness :
    (make_request (fun _ => none) "GET" "https://x/y" [] none []
      (fun _ _ _ _ _ _ =>
        .resp { status_code := 503, headers := [], body := "busy" })
      0).1.isError = true
    ∧ safe_request (fun _ => none) "GET"
        (.resp { status_code := 500, headers := [], body := "boom" }) = none :=
  ⟨(c6_amended_propagation (fun _ => none) "GET" "https://x/y" [] none []
      (fun _ _ _ _ _ _ =>
        .resp { status_code := 503, headers := [], body := "busy" }) 0
      (.resp { status_code := 500, headers := [], body := "boom" })
      (Or.inl (by decide))).1
    (fun _ r hr => by cases hr; decide),
   (c6_amended_propagation (fun _ => none) "GET" "https://x/y" [] none []
      (fun _ _ _ _ _ _ =>
        .resp { status_code := 503, headers := [], body := "busy" }) 0
      (.resp { status_code := 500, headers := [], body := "boom" })
      (Or.inl (by decide))).2
    (fun r hr => by cases hr; decide)⟩

/-- C2 counterexample: the claim treats SANDBOX/PRODUCTION and SB/PROD as
interchangeable aliases of one resolver, but `ConfigManager.set_headers`
rejects the canonical name `SANDBOX` with `ValueError` (it accepts only
SB/PROD), and `AlmaAPIClient._load_configuration` rejects the alias `SB`
(it accepts only SANDBOX/PRODUCTION) — so for the alias strings the claim
requires to resolve, resolution errors instead of selecting the stored
credential. -/
theorem c2_alias_counterexample :
    (ConfigManager.set_environment cmReady "SANDBOX").2 =
      some "Invalid environment: SANDBOX"
    ∧ (AlmaAPIClient.load_configuration (fun _ => some "key")
        { environment := pyUpper "sb", api_key := none, base_url := "",
          default_headers := [] }).2 =
      some "Environment must be 'SANDBOX' or 'PRODUCTION'" :=
  ⟨rfl, rfl⟩

/-- C2 as amended: each resolver supports only its own pair of names,
case-insensitively.  `ConfigManager` accepts exactly SB/PROD (after
uppercasing), installing headers with the matching stored key, and raises
`ValueError` on everything else — including SANDBOX/PRODUCTION;
`AlmaAPIClient._load_configuration` accepts exactly SANDBOX/PRODUCTION
(its callers uppercase first), storing the matching key from the process
environment, and raises `ValueError` on everything else — including
SB/PROD. -/
theorem c2_amended_environment_resolution (st : CMState)
    (envm : String → Option String) (ast : AClientState) (s : String) :
    (pyUpper s = "SB" →
      ConfigManager.set_environment st s =
        ({ st with current_environment := some "SB", headers := some (
          [("authorization", "apikey " ++ optStr st.api_key_sb),
           ("accept", "application/json"),
           ("content-type", "application/json; charset=utf-8")]) }, none))
    ∧ (pyUpper s = "PROD" →
      ConfigManager.set_environment st s =
        ({ st with current_environment := some "PROD", headers := some (
          [("authorization", "apikey " ++ optStr st.api_key_prod),
           ("accept", "application/json"),
           ("content-type", "application/json; charset=utf-8")]) }, none))
    ∧ (pyUpper s ≠ "SB" → pyUpper s ≠ "PROD" →
      ConfigManager.set_environment st s =
        ({ st with current_environment := some (pyUpper s) },
         some ("Invalid environment: " ++ pyUpper s)))
    ∧ (ast.environment = "SANDBOX" →
        pyTruthyOpt (envm "ALMA_SB_API_KEY") = true →
      AlmaAPIClient.load_configuration envm ast =
        ({ ast with api_key := envm "ALMA_SB_API_KEY",
                    base_url := ALMA_BASE_URL }, none))
    ∧ (ast.environment = "PRODUCTION" →
        pyTruthyOpt (envm "ALMA_PROD_API_KEY") = true →
      AlmaAPIClient.load_configuration envm ast =
        ({ ast with api_key := envm "ALMA_PROD_API_KEY",
                    base_url := ALMA_BASE_URL }, none))
    ∧ (ast.environment ≠ "SANDBOX" → ast.environment ≠ "PRODUCTION" →
      AlmaAPIClient.load_configuration envm ast =
        (ast, some "Environment must be 'SANDBOX' or 'PRODUCTION'")) := by
  refine ⟨?_, ?_, ?_, ?_, ?_, ?_⟩
  · intro h
    simp [ConfigManager.set_environment, ConfigManager.set_headers, h]
  · intro h
    simp [ConfigManager.set_environment, ConfigManager.set_headers, h]
  · intro h1 h2
    simp [ConfigManager.set_environment, ConfigManager.set_headers, h1, h2]
  · intro h hk
    simp [AlmaAPIClient.load_configuration, h, hk]
  · intro h hk
    simp [AlmaAPIClient.load_configuration, h, hk]
  · intro h1 h2
    simp [AlmaAPIClient.load_configuration, h1, h2]

/-- Witness for `c2_amended_environment_resolution`: `cmReady` resolves
`"sb"` and `"prod"`, rejects `"SANDBOX"`; a SANDBOX-named client state
resolves under a complete process environment. -/
theorem c2_amended_environment_resolution_witness :
    (pyUpper "sb" = "SB" →
      ConfigManager.set_environment cmReady "sb" =
        ({ cmReady with current_environment := some "SB", headers := some (
          [("authorization", "apikey " ++ optStr cmReady.api_key_sb),
           ("accept", "application/json"),
           ("content-type", "application/json; charset=utf-8")]) }, none))
    ∧ (pyUpper "SANDBOX" ≠ "SB" → pyUpper "SANDBOX" ≠ "PROD" →
      ConfigManager.set_environment cmReady "SANDBOX" =
        ({ cmReady with current_environment := some (pyUpper "SANDBOX") },
         some ("Invalid environment: " ++ pyUpper "SANDBOX")))
    ∧ (("SANDBOX" : String) = "SANDBOX" →
        pyTruthyOpt ((fun _ => some "key") "ALMA_SB_API_KEY") = true →
      AlmaAPIClient.load_configuration (fun _ => some "key")
        { environment := "SANDBOX", api_key := none, base_url := "",
          default_headers := [] } =
        ({ environment := "SANDBOX", api_key := some "key",
           base_url := ALMA_BASE_URL, default_headers := [] }, none)) :=
  ⟨(c2_amended_environment_resolution cmReady (fun _ => some "key")
      { environment := "SANDBOX", api_key := none, base_url := "",
        default_headers := [] } "sb").1,
   (c2_amended_environment_resolution cmReady (fun _ => some "key")
      { environment := "SANDBOX", api_key := none, base_url := "",
        default_headers := [] } "SANDBOX").2.2.1,
   (c2_amended_environment_resolution cmReady (fun _ => some "key")
      { environment := "SANDBOX", api_key := none, base_url := "",
        default_headers := [] } "sb").2.2.2.1⟩

/-- Helper: characterization of an `AlmaAPIClient` state that reloading
leaves unchanged (as any successfully constructed state is): its
environment is one of the two accepted names, the matching key is present
and truthy, and `api_key` / `base_url` hold the loaded values. -/
theorem load_configuration_fixpoint_spec (envm : String → Option String)
    (st : AClientState)
    (h : AlmaAPIClient.load_configuration envm st = (st, none)) :
    (st.environment = "SANDBOX" ∧ pyTruthyOpt (envm "ALMA_SB_API_KEY") = true ∧
      st.api_key = envm "ALMA_SB_API_KEY" ∧ st.base_url = ALMA_BASE_URL)
    ∨ (st.environment = "PRODUCTION" ∧
      pyTruthyOpt (envm "ALMA_PROD_API_KEY") = true ∧
      st.api_key = envm "ALMA_PROD_API_KEY" ∧ st.base_url = ALMA_BASE_URL) := by
  unfold AlmaAPIClient.load_configuration at h
  dsimp only at h
  split at h
  case isTrue henv =>
    split at h
    case isTrue hk =>
      left
      have h1 : ({ st with api_key := envm "ALMA_SB_API_KEY",
                           base_url := ALMA_BASE_URL } : AClientState) = st :=
        congrArg Prod.fst h
      exact ⟨henv, hk, (congrArg AClientState.api_key h1).symm,
        (congrArg AClientState.base_url h1).symm⟩
    case isFalse hk => simp at h
  case isFalse henv1 =>
    split at h
    case isTrue henv =>
      split at h
      case isTrue hk =>
        right
        have h1 : ({ st with api_key := envm "ALMA_PROD_API_KEY",
                             base_url := ALMA_BASE_URL } : AClientState) = st :=
          congrArg Prod.fst h
        exact ⟨henv, hk, (congrArg AClientState.api_key h1).symm,
          (congrArg AClientState.base_url h1).symm⟩
      case isFalse hk => simp at h
    case isFalse henv2 => simp at h

/-- Helper: a state produced by a successful `AlmaAPIClient.__init__` is a
fixpoint of `_load_configuration` and `_setup_headers` (reloading the same
environment reproduces it exactly). -/
theorem aclient_init_fixpoint (envm : String → Option String) (A : String)
    (st : AClientState) (h : AlmaAPIClient.init envm A = (st, none)) :
    AlmaAPIClient.load_configuration envm st = (st, none) ∧
    AlmaAPIClient.setup_headers st = st := by
  unfold AlmaAPIClient.init at h
  dsimp only at h
  split at h
  case h_1 st1 e heq => simp at h
  case h_2 st1 heq =>
    have hst : st = AlmaAPIClient.setup_headers st1 :=
      (congrArg Prod.fst h).symm
    unfold AlmaAPIClient.load_configuration at heq
    dsimp only at heq
    split at heq
    case isTrue henv =>
      split at heq
      case isTrue hk =>
        injection heq with h1 h2
        subst h1
        subst hst
        constructor
        · unfold AlmaAPIClient.load_configuration AlmaAPIClient.setup_headers
          dsimp only
          rw [if_pos henv, if_pos hk]
        · rfl
      case isFalse hk => simp at heq
    case isFalse henv1 =>
      split at heq
      case isTrue henv =>
        split at heq
        case isTrue hk =>
          injection heq with h1 h2
          subst h1
          subst hst
          constructor
          · unfold AlmaAPIClient.load_configuration AlmaAPIClient.setup_headers
            dsimp only
            rw [if_neg henv1, if_pos henv, if_pos hk]
          · rfl
        case isFalse hk => simp at heq
      case isFalse henv2 => simp at heq

/-- C3 counterexample: switching `AlmaClient` (client.py) from active
environment `SB` to the invalid name `SANDBOX` neither raises (it returns
`False`) nor leaves the active environment unchanged — the stored
`current_environment` ends up as the new, unusable name `SANDBOX` while
the old one was `SB`.  (Headers and base URL do stay unchanged.) -/
theorem c3_no_rollback_counterexample :
    (AlmaClient.switch_environment c3ClientState "SANDBOX" true).2 = false
    ∧ (AlmaClient.switch_environment c3ClientState "SANDBOX"
        true).1.config.current_environment = some "SANDBOX"
    ∧ c3ClientState.config.current_environment = some "SB"
    ∧ (AlmaClient.switch_environment c3ClientState "SANDBOX" true).1.bcHeaders
        = c3ClientState.bcHeaders
    ∧ (AlmaClient.switch_environment c3ClientState "SANDBOX" true).1.bcBaseUrl
        = c3ClientState.bcBaseUrl :=
  ⟨rfl, rfl, rfl, rfl, rfl⟩

/-- C3 as amended: `AlmaAPIClient.switch_environment` is all-or-nothing —
for a successfully constructed gateway, a failed switch (unknown name or
missing credential) re-raises the error with the state (environment,
api key, base URL, headers) restored exactly; `AlmaClient` (client.py), by
contrast, converts the failure to a `False` return without raising,
leaving the base client's headers and base URL unchanged but recording the
new invalid name as `current_environment`. -/
theorem c3_amended_switch_rollback (envm : String → Option String)
    (A B : String) (st : AClientState) (e : String)
    (cst : AlmaClientState) (env2 : String) (tc : Bool) (e2 : String) :
    (AlmaAPIClient.init envm A = (st, none) →
      (AlmaAPIClient.load_configuration envm
        { st with environment := pyUpper B }).2 = some e →
      AlmaAPIClient.switch_environment envm st B = (st, some e))
    ∧ (ConfigManager.set_headers
        { cst.config with current_environment := some (pyUpper env2) }
        (pyUpper env2) = .error e2 →
      AlmaClient.switch_environment cst env2 tc =
        ({ cst with config :=
          { cst.config with current_environment := some (pyUpper env2) } },
         false)) := by
  constructor
  · intro hinit hfail
    obtain ⟨hfix, hset⟩ := aclient_init_fixpoint envm A st hinit
    have hspec := load_configuration_fixpoint_spec envm st hfix
    obtain ⟨env0, key0, url0, hdr0⟩ := st
    dsimp only at hspec
    unfold AlmaAPIClient.switch_environment
    dsimp only
    rcases hlc : AlmaAPIClient.load_configuration envm
      { environment := pyUpper B, api_key := key0, base_url := url0,
        default_headers := hdr0 } with ⟨st2, eo⟩
    rw [hlc] at hfail
    dsimp only at hfail
    subst hfail
    dsimp only
    have hload3 : AlmaAPIClient.load_configuration envm
        { st2 with environment := env0 } =
        ({ environment := env0, api_key := key0, base_url := url0,
           default_headers := hdr0 }, none) := by
      unfold AlmaAPIClient.load_configuration at hlc
      dsimp only at hlc
      split at hlc
      case isTrue henvB =>
        split at hlc
        case isTrue hkB => simp at hlc
        case isFalse hkB =>
          injection hlc with h1 h2
          subst h1
          rcases hspec with ⟨hA, hks, hak, hbu⟩ | ⟨hA, hkp, hak, hbu⟩
          · exact absurd hks hkB
          · unfold AlmaAPIClient.load_configuration
            dsimp only
            rw [if_neg (by rw [hA]; decide), if_pos hA, if_pos hkp]
            rw [← hak, ← hbu]
      case isFalse henvB1 =>
        split at hlc
        case isTrue henvB =>
          split at hlc
          case isTrue hkB => simp at hlc
          case isFalse hkB =>
            injection hlc with h1 h2
            subst h1
            rcases hspec with ⟨hA, hks, hak, hbu⟩ | ⟨hA, hkp, hak, hbu⟩
            · unfold AlmaAPIClient.load_configuration
              dsimp only
              rw [if_pos hA, if_pos hks]
              rw [← hak, ← hbu]
            · exact absurd hkp hkB
        case isFalse henvB2 =>
          injection hlc with h1 h2
          subst h1
          exact hfix
    rw [hload3]
    dsimp only
    rw [hset]
  · intro hsh
    unfold AlmaClient.switch_environment ConfigManager.set_environment
    dsimp only
    rw [hsh]

/-- Witness for `c3_amended_switch_rollback`: a sandbox gateway whose
switch to `PRODUCTION` fails for lack of a key and rolls back exactly, and
an `AlmaClient` switch to the invalid name `SANDBOX` that returns `False`
with only `current_environment` clobbered. -/
theorem c3_amended_switch_rollback_witness :
    AlmaAPIClient.switch_environment envSbOnly aclientSandbox "PRODUCTION" =
      (aclientSandbox, some "ALMA_PROD_API_KEY environment variable not set")
    ∧ AlmaClient.switch_environment c3ClientState "SANDBOX" true =
      ({ c3ClientState with config := { c3ClientState.config with
          current_environment := some (pyUpper "SANDBOX") } }, false) :=
  ⟨(c3_amended_switch_rollback envSbOnly "SANDBOX" "PRODUCTION"
      aclientSandbox "ALMA_PROD_API_KEY environment variable not set"
      c3ClientState "SANDBOX" true "Invalid environment: SANDBOX").1
    rfl rfl,
   (c3_amended_switch_rollback envSbOnly "SANDBOX" "PRODUCTION"
      aclientSandbox "ALMA_PROD_API_KEY environment variable not set"
      c3ClientState "SANDBOX" true "Invalid environment: SANDBOX").2
    rfl⟩
